import Mathlib

/-!
Shallow embedding of the WebGL demo repository (two cube variants and a
triangle variant) and proofs of the frozen claims about it.

Source files:
- `src/unnamed/part_000`, first part: a `World` class (context wrapper,
  shader/buffer helpers, two-cube render loop) and a `Cube` driver that
  calls `world.run(boxVertices, colors, boxIndices)` with non-interleaved
  position and color buffers.
- `src/unnamed/part_000`, second part: a single-cube variant with an
  interleaved vertex buffer built by `generateCubeVertices`.
- `src/script2.js`: a `Triangle` variant.

Numeric data is modelled over `ℚ` (the source literals are exact decimal
fractions); time-dependent transform math, which involves π and
trigonometry, is modelled over `ℝ`.  GL/DOM side effects are modelled as
explicit event traces, with a thrown JavaScript `TypeError` on a null
dereference modelled as an `Option JsErr` result component.
-/

/-! ## Geometry Provider (second part of part_000) -/

/-- The per-vertex color list shared verbatim by both cube variants
(`colors` in the source): six fixed RGB colors, each repeated for the four
vertices of one face. -/
def colors : List ℚ :=
  [0.5, 0.5, 0.5,
   0.5, 0.5, 0.5,
   0.5, 0.5, 0.5,
   0.5, 0.5, 0.5,

   0.75, 0.25, 0.5,
   0.75, 0.25, 0.5,
   0.75, 0.25, 0.5,
   0.75, 0.25, 0.5,

   0.25, 0.25, 0.75,
   0.25, 0.25, 0.75,
   0.25, 0.25, 0.75,
   0.25, 0.25, 0.75,

   1.0, 0.0, 0.15,
   1.0, 0.0, 0.15,
   1.0, 0.0, 0.15,
   1.0, 0.0, 0.15,

   0.0, 1.0, 0.15,
   0.0, 1.0, 0.15,
   0.0, 1.0, 0.15,
   0.0, 1.0, 0.15,

   0.5, 0.5, 1.0,
   0.5, 0.5, 1.0,
   0.5, 0.5, 1.0,
   0.5, 0.5, 1.0]

/-- The fixed triangle index list shared verbatim by both cube variants
(`boxIndices` in the source): two triangles per face, six faces. -/
def boxIndices : List ℕ :=
  [0, 1, 2,
   0, 2, 3,

   5, 4, 6,
   6, 4, 7,

   8, 9, 10,
   8, 10, 11,

   13, 12, 14,
   15, 14, 12,

   16, 17, 18,
   16, 18, 19,

   21, 20, 22,
   22, 20, 23]

/-- `generateCubeVertices(sideLength, vertexColors)`: builds the 24 corner
positions of a cube with the given side length (four per face), then
interleaves each position with the corresponding color triple, producing
six floats per vertex.  Out-of-range JavaScript array reads are modelled
by `List.getD` (they do not occur at the call sites, where both lists have
72 entries). -/
def generateCubeVertices (sideLength : ℚ) (vertexColors : List ℚ) : List ℚ :=
  let halfLength := sideLength / 2
  let vertices : List ℚ :=
    [ -- Top
     -halfLength, halfLength, -halfLength,
     -halfLength, halfLength, halfLength,
     halfLength, halfLength, halfLength,
     halfLength, halfLength, -halfLength,

     -- Left
     -halfLength, halfLength, halfLength,
     -halfLength, -halfLength, halfLength,
     -halfLength, -halfLength, -halfLength,
     -halfLength, halfLength, -halfLength,

     -- Right
     halfLength, halfLength, halfLength,
     halfLength, -halfLength, halfLength,
     halfLength, -halfLength, -halfLength,
     halfLength, halfLength, -halfLength,

     -- Front
     halfLength, halfLength, halfLength,
     halfLength, -halfLength, halfLength,
     -halfLength, -halfLength, halfLength,
     -halfLength, halfLength, halfLength,

     -- Back
     halfLength, halfLength, -halfLength,
     halfLength, -halfLength, -halfLength,
     -halfLength, -halfLength, -halfLength,
     -halfLength, halfLength, -halfLength,

     -- Bottom
     -halfLength, -halfLength, -halfLength,
     -halfLength, -halfLength, halfLength,
     halfLength, -halfLength, halfLength,
     halfLength, -halfLength, -halfLength]
  let vertexCount := vertices.length / 3
  (List.range vertexCount).flatMap fun i =>
    [vertices.getD (i * 3) 0,
     vertices.getD (i * 3 + 1) 0,
     vertices.getD (i * 3 + 2) 0,
     vertexColors.getD (i * 3) 0,
     vertexColors.getD (i * 3 + 1) 0,
     vertexColors.getD (i * 3 + 2) 0]

/-- The non-interleaved position list of the two-cube variant
(`boxVertices` in the first part of part_000): the 24 cube corners for a
side length of 2. -/
def boxVertices : List ℚ :=
  [ -- Top
   -1.0, 1.0, -1.0,
   -1.0, 1.0, 1.0,
   1.0, 1.0, 1.0,
   1.0, 1.0, -1.0,

   -- Left
   -1.0, 1.0, 1.0,
   -1.0, -1.0, 1.0,
   -1.0, -1.0, -1.0,
   -1.0, 1.0, -1.0,

   -- Right
   1.0, 1.0, 1.0,
   1.0, -1.0, 1.0,
   1.0, -1.0, -1.0,
   1.0, 1.0, -1.0,

   -- Front
   1.0, 1.0, 1.0,
   1.0, -1.0, 1.0,
   -1.0, -1.0, 1.0,
   -1.0, 1.0, 1.0,

   -- Back
   1.0, 1.0, -1.0,
   1.0, -1.0, -1.0,
   -1.0, -1.0, -1.0,
   -1.0, 1.0, -1.0,

   -- Bottom
   -1.0, -1.0, -1.0,
   -1.0, -1.0, 1.0,
   1.0, -1.0, 1.0,
   1.0, -1.0, -1.0]

/-- Length of a `flatMap` over `List.range` whose pieces all have the same
length. -/
theorem length_flatMap_range {α : Type} (n k : ℕ) (f : ℕ → List α)
    (h : ∀ i, (f i).length = k) :
    ((List.range n).flatMap f).length = n * k := by
  induction n with
  | zero => simp
  | succ m ih => simp [List.range_succ, ih, h, Nat.succ_mul]

/-- The RGB triple assigned to vertex `i` by the `colors` list. -/
def colorTriple (i : ℕ) : ℚ × ℚ × ℚ :=
  (colors.getD (3 * i) 0, colors.getD (3 * i + 1) 0, colors.getD (3 * i + 2) 0)

/-- The palette color of face `f` (faces are consecutive groups of four
vertices): the color of the face's first vertex. -/
def faceColor (f : ℕ) : ℚ × ℚ × ℚ := colorTriple (4 * f)

/-- Claim C1: for every side length L > 0, `generateCubeVertices` together
with the fixed index list produces exactly 24 vertices (6 interleaved
floats each, so 24 · 6 list entries) and exactly 36 indices, every one of
which is strictly less than 24. -/
theorem C1_cube_geometry_counts (L : ℚ) (_hL : 0 < L) :
    (generateCubeVertices L colors).length = 24 * 6 ∧
    boxIndices.length = 36 ∧
    ∀ i ∈ boxIndices, i < 24 := by
  refine ⟨?_, by decide, by decide⟩
  simp only [generateCubeVertices]
  refine (length_flatMap_range _ 6 _ ?_).trans (by norm_num)
  intro i
  rfl

/-- Witness for C1 at the concrete side length 2 (the length used by the
end-to-end scenario in the spec). -/
theorem C1_witness : (0 : ℚ) < 2 ∧
    (generateCubeVertices 2 colors).length = 24 * 6 :=
  ⟨zero_lt_two, (C1_cube_geometry_counts 2 zero_lt_two).1⟩

/-- Claim C2: in the cube color data, each of the 6 faces has all 4 of its
vertices assigned the same RGB color, and the 6 per-face palette colors are
pairwise distinct. -/
theorem C2_face_colors_uniform_and_distinct :
    (∀ f < 6, ∀ v < 4, colorTriple (4 * f + v) = faceColor f) ∧
    (∀ f < 6, ∀ g < 6, f ≠ g → faceColor f ≠ faceColor g) := by
  constructor
  · intro f hf v hv
    interval_cases f <;> interval_cases v <;> rfl
  · have e0 : faceColor 0 = (0.5, 0.5, 0.5) := rfl
    have e1 : faceColor 1 = (0.75, 0.25, 0.5) := rfl
    have e2 : faceColor 2 = (0.25, 0.25, 0.75) := rfl
    have e3 : faceColor 3 = (1.0, 0.0, 0.15) := rfl
    have e4 : faceColor 4 = (0.0, 1.0, 0.15) := rfl
    have e5 : faceColor 5 = (0.5, 0.5, 1.0) := rfl
    intro f hf g hg hne
    interval_cases f <;> interval_cases g <;>
      first
        | exact absurd rfl hne
        | norm_num [e0, e1, e2, e3, e4, e5, Prod.ext_iff]

/-- Witness for C2 at concrete face/vertex numbers: face 1 is uniformly
colored and differs from face 4. -/
theorem C2_witness :
    colorTriple (4 * 1 + 2) = faceColor 1 ∧ faceColor 1 ≠ faceColor 4 :=
  ⟨C2_face_colors_uniform_and_distinct.1 1 (by decide) 2 (by decide),
   C2_face_colors_uniform_and_distinct.2 1 (by decide) 4 (by decide) (by decide)⟩

/-! ## Effect traces

GL and DOM calls are modelled as an explicit list of events.  A JavaScript
`TypeError` thrown by dereferencing `null` (the only failure the source
can hit) is modelled as an `Option JsErr` paired with the events emitted
before the throw. -/

/-- Shader stage kind (`VERTEX` / `FRAGMENT`). -/
inductive ShaderKind
  | vertex
  | fragment
  deriving DecidableEq

/-- The uniform names of the shader program. -/
inductive UName
  | mWorld
  | mView
  | mProj
  deriving DecidableEq

/-- The attribute names of the shader program. -/
inductive AttrName
  | vertPosition
  | vertColor
  deriving DecidableEq

/-- Draw primitive mode (only `gl.TRIANGLES` occurs in the source). -/
inductive PrimMode
  | triangles
  deriving DecidableEq

/-- A thrown JavaScript error: dereferencing `null` (a missing element or
a null context), or reading `.length` of a null index list. -/
inductive JsErr
  | nullDeref
  | nullLength
  deriving DecidableEq

/-- One observable GL/DOM call. -/
inductive Ev
  | getElement
  | getContext
  | createProgram
  | clearColor
  | clear
  | enableDepthTest
  | enableCullFace
  | createShader (k : ShaderKind)
  | shaderSource (k : ShaderKind)
  | compileShader (k : ShaderKind)
  | getCompileStatus (k : ShaderKind)
  | consoleLog
  | attachShader (k : ShaderKind)
  | detachShader (k : ShaderKind)
  | linkProgram
  | validateProgram
  | bindArray (buf : ℕ)
  | bufferDataArray (len : ℕ)
  | bindElement (buf : ℕ)
  | bufferDataElement (len : ℕ)
  | attrPointer (a : AttrName) (size stride offset : ℕ)
  | enableAttr (a : AttrName)
  | useProgram
  | uniformM (u : UName)
  | draw (mode : PrimMode) (count : ℕ)
  | drawArrays (mode : PrimMode) (count : ℕ)
  | alert
  | raf
  deriving DecidableEq

/-- `Float32Array.BYTES_PER_ELEMENT`. -/
def floatBytes : ℕ := 4

def isDraw : Ev → Bool
  | .draw _ _ => true
  | _ => false

def isRaf : Ev → Bool
  | .raf => true
  | _ => false

def isAlert : Ev → Bool
  | .alert => true
  | _ => false

def isLog : Ev → Bool
  | .consoleLog => true
  | _ => false

def isBindElement : Ev → Bool
  | .bindElement _ => true
  | _ => false

def isUniformView : Ev → Bool
  | .uniformM .mView => true
  | _ => false

def isUniformProj : Ev → Bool
  | .uniformM .mProj => true
  | _ => false

/-- The events a render-loop iteration is allowed to emit by the frame
condition of claim C8: clearing the frame buffer, uploading the world
matrix, issuing indexed draws, and scheduling the next callback. -/
def frameScoped : Ev → Bool
  | .clear => true
  | .uniformM .mWorld => true
  | .draw _ _ => true
  | .raf => true
  | _ => false

/-- Number of events of a trace satisfying a classifier. -/
def countEv (tr : List Ev) (p : Ev → Bool) : ℕ := (tr.filter p).length

/-- The (mode, count) arguments of the draw calls of a trace, in order. -/
def drawCalls (tr : List Ev) : List (PrimMode × ℕ) :=
  tr.filterMap fun e =>
    match e with
    | .draw m n => some (m, n)
    | _ => none

/-- The (attribute, size, stride, offset) arguments of the attribute
binder calls of a trace, in order. -/
def attrCalls (tr : List Ev) : List (AttrName × ℕ × ℕ × ℕ) :=
  tr.filterMap fun e =>
    match e with
    | .attrPointer a s st o => some (a, s, st, o)
    | _ => none

/-- The `ARRAY_BUFFER` binding in effect when the pointer call for
attribute `a` executes (fold state: currently bound buffer, answer). -/
def boundArrayAt : List Ev → Option ℕ → AttrName → Option ℕ
  | [], _, _ => none
  | .bindArray b :: rest, _, a => boundArrayAt rest (some b) a
  | .attrPointer a' _ _ _ :: rest, cur, a =>
      if a' = a then cur else boundArrayAt rest cur a
  | _ :: rest, cur, a => boundArrayAt rest cur a

/-- The buffer a given attribute is bound to in a trace. -/
def boundArrayBefore (tr : List Ev) (a : AttrName) : Option ℕ :=
  boundArrayAt tr none a

/-! ## World class (first part of part_000) -/

/-- `World.loadShader(shaderTxt, type)`: creates a shader of the given
kind, sets its source, compiles it and attaches it to the program.  The
source contains no compile-status check and no branch, so the trace does
not depend on whether the compile succeeded. -/
def worldLoadShaderTr (k : ShaderKind) (_compileOk : Bool) : List Ev :=
  [.createShader k, .shaderSource k, .compileShader k, .attachShader k]

/-- `World.prepareShaders()`: loads the two shaders and links the
program. -/
def worldPrepareShadersTr (okV okF : Bool) : List Ev :=
  worldLoadShaderTr .vertex okV ++ worldLoadShaderTr .fragment okF ++ [.linkProgram]

/-- `World.prepareBuffer(type, name)`, branch for name `VERTEX` or
`COLOR`: create a buffer, bind it to `ARRAY_BUFFER` and fill it. -/
def prepareBufferTrArray (dataLen : ℕ) (bufId : ℕ) : List Ev :=
  [.bindArray bufId, .bufferDataArray dataLen]

/-- `World.prepareBuffer(type, name)`, branch for name `INDICE`: create a
buffer, bind it to `ELEMENT_ARRAY_BUFFER` and fill it. -/
def prepareBufferTrElement (dataLen : ℕ) (bufId : ℕ) : List Ev :=
  [.bindElement bufId, .bufferDataElement dataLen]

/-- `World.loadObject(vertices, colors, indices = null)`: uploads the
position buffer, optionally the index buffer, binds the position
attribute (stride `3 * BYTES_PER_ELEMENT`, offset 0), then uploads the
color buffer into its own buffer object and binds the color attribute
(stride `3 * BYTES_PER_ELEMENT`, offset `0 * BYTES_PER_ELEMENT`).  Buffer
object ids number the `createBuffer` calls in order. -/
def worldLoadObjectTr (vlen clen : ℕ) (indices : Option (List ℕ)) : List Ev :=
  prepareBufferTrArray vlen 0 ++
  (match indices with
   | none => []
   | some l => prepareBufferTrElement l.length 1) ++
  [.attrPointer .vertPosition 3 (3 * floatBytes) 0, .enableAttr .vertPosition] ++
  prepareBufferTrArray clen (match indices with | none => 1 | some _ => 2) ++
  [.attrPointer .vertColor 3 (3 * floatBytes) (0 * floatBytes), .enableAttr .vertColor]

/-- The part of `World.run(vertices, colors, indices = null)` executed
before the render loop is entered: shader setup, object upload, program
selection, the three uniform uploads (world, view, projection) and the
initial `requestAnimationFrame` call. -/
def worldRunSetupTr (okV okF : Bool) (vlen clen : ℕ) (indices : Option (List ℕ)) :
    List Ev :=
  worldPrepareShadersTr okV okF ++ worldLoadObjectTr vlen clen indices ++
  [.useProgram, .uniformM .mWorld, .uniformM .mView, .uniformM .mProj, .raf]

/-- One iteration of the `loop` closure of `World.run`: clear, upload the
first world matrix, draw `indices.length` indices, upload the second world
matrix, draw again, request the next frame.  When `indices` is null,
evaluating `indices.length` for the first draw call throws after the clear
and the first world-matrix upload. -/
def worldLoopIterTr (indices : Option (List ℕ)) : List Ev × Option JsErr :=
  match indices with
  | none => ([.clear, .uniformM .mWorld], some .nullLength)
  | some l =>
      ([.clear, .uniformM .mWorld, .draw .triangles l.length,
        .uniformM .mWorld, .draw .triangles l.length, .raf], none)

/-- The `Cube` driver of the first part of part_000 calls
`world.run(boxVertices, colors, boxIndices)`; this is its pre-loop
trace. -/
def cube2RunSetupTr (okV okF : Bool) : List Ev :=
  worldRunSetupTr okV okF boxVertices.length colors.length (some boxIndices)

/-- `World` constructor: element lookup, context acquisition,
`createProgram` on the context, then `prepareBackGround` (clear color,
clear, depth test, face culling).  There is no null check anywhere: a
missing canvas makes `getContext` throw, a null context makes
`createProgram` throw; no alert is shown in either case. -/
def worldConstructorTr (canvasPresent webglOk : Bool) : List Ev × Option JsErr :=
  if canvasPresent then
    if webglOk then
      ([.getElement, .getContext, .createProgram,
        .clearColor, .clear, .enableDepthTest, .enableCullFace], none)
    else
      ([.getElement, .getContext], some .nullDeref)
  else
    ([.getElement], some .nullDeref)

/-! ## Shared compile-and-link sequence (script2.js Triangle and the
interleaved Cube of part_000, which contain the identical statement
sequence) -/

/-- Create both shaders, set sources, compile each and log the info log
when its compile status is false, then create the program, attach both
shaders, link, detach and validate. -/
def compileAndLinkTr (okV okF : Bool) : List Ev :=
  [.createShader .vertex, .createShader .fragment,
   .shaderSource .vertex, .shaderSource .fragment,
   .compileShader .vertex, .getCompileStatus .vertex] ++
  (if okV then [] else [.consoleLog]) ++
  [.compileShader .fragment, .getCompileStatus .fragment] ++
  (if okF then [] else [.consoleLog]) ++
  [.createProgram, .attachShader .vertex, .attachShader .fragment,
   .linkProgram, .detachShader .vertex, .detachShader .fragment,
   .validateProgram]

/-! ## Interleaved Cube variant (second part of part_000) -/

/-- The pre-loop part of the interleaved `Cube(length)` function: module
level canvas/context acquisition is outside it, so this starts at the
clear-color call.  The vertex buffer holds the interleaved output of
`generateCubeVertices`, the index buffer holds `boxIndices`, and both
attributes are bound with stride `6 * BYTES_PER_ELEMENT`, with the color
attribute at offset `3 * BYTES_PER_ELEMENT`. -/
def cubeSetupTr (okV okF : Bool) (L : ℚ) : List Ev :=
  [.clearColor, .clear, .enableDepthTest, .enableCullFace] ++
  compileAndLinkTr okV okF ++
  [.bindArray 0, .bufferDataArray (generateCubeVertices L colors).length,
   .bindElement 1, .bufferDataElement boxIndices.length,
   .attrPointer .vertPosition 3 (6 * floatBytes) 0,
   .attrPointer .vertColor 3 (6 * floatBytes) (3 * floatBytes),
   .enableAttr .vertPosition, .enableAttr .vertColor,
   .useProgram, .uniformM .mWorld, .uniformM .mView, .uniformM .mProj, .raf]

/-- One iteration of the `loop` closure of the interleaved Cube variant:
upload the world matrix, clear, draw `boxIndices.length` indices, request
the next frame. -/
def cubeLoopIterTr : List Ev :=
  [.uniformM .mWorld, .clear, .draw .triangles boxIndices.length, .raf]

/-! ## Triangle variant (script2.js) -/

/-- The 6 interleaved 2D vertices of the triangle demo. -/
def triangleVert : List ℚ :=
  [0.5, 0.5, 1.0, 0.0, 0.0,
   -0.5, -0.5, 0.0, 1.0, 0.0,
   0.5, -0.5, 0.0, 0.0, 1.0,
   0.5, 0.5, 1.0, 0.0, 0.0,
   -0.5, -0.5, 0.0, 1.0, 0.0,
   -0.5, 0.5, 0.0, 0.0, 1.0]

/-- The whole `Triangle` function of script2.js: element lookup, a
`console.log` of the element, context acquisition, an alert if the context
is falsy (execution continues past the alert), then clear color, clear,
the compile-and-link sequence, buffer upload, attribute binding and one
`drawArrays` call.  A missing canvas makes `canvas.getContext` throw
before any alert; a null context makes `gl.clearColor` throw right after
the alert. -/
def triangleStartTr (canvasPresent webglOk okV okF : Bool) :
    List Ev × Option JsErr :=
  if canvasPresent then
    if webglOk then
      ([.getElement, .consoleLog, .getContext, .clearColor, .clear] ++
       compileAndLinkTr okV okF ++
       [.bindArray 0, .bufferDataArray triangleVert.length,
        .attrPointer .vertPosition 2 (5 * floatBytes) 0,
        .attrPointer .vertColor 3 (5 * floatBytes) (2 * floatBytes),
        .enableAttr .vertPosition, .enableAttr .vertColor,
        .useProgram, .drawArrays .triangles 6], none)
    else
      ([.getElement, .consoleLog, .getContext, .alert], some .nullDeref)
  else
    ([.getElement, .consoleLog], some .nullDeref)

/-! ## Claims about the traces -/

/-- Claim C3: the stride and offset passed to the attribute binder match
the layout the Geometry Provider produces.  In the interleaved cube
variant both attributes use stride `(3 + 3) * floatBytes` — exactly the
six floats per vertex that `generateCubeVertices` emits — with the color
attribute at offset `3 * floatBytes`.  In the non-interleaved World
variant both attributes use stride `3 * floatBytes` and offset 0, and the
pointer calls for the two attributes execute under different
`ARRAY_BUFFER` bindings (each attribute has its own buffer). -/
theorem C3_attribute_layout_matches_provider :
    ∀ (L : ℚ) (okV okF : Bool),
    (generateCubeVertices L colors).length = 24 * 6 ∧
    attrCalls (cubeSetupTr okV okF L) =
      [(.vertPosition, 3, 6 * floatBytes, 0),
       (.vertColor, 3, 6 * floatBytes, 3 * floatBytes)] ∧
    attrCalls (worldLoadObjectTr boxVertices.length colors.length (some boxIndices)) =
      [(.vertPosition, 3, 3 * floatBytes, 0),
       (.vertColor, 3, 3 * floatBytes, 0)] ∧
    boundArrayBefore
        (worldLoadObjectTr boxVertices.length colors.length (some boxIndices))
        .vertPosition = some 0 ∧
    boundArrayBefore
        (worldLoadObjectTr boxVertices.length colors.length (some boxIndices))
        .vertColor = some 2 := by
  intro L okV okF
  refine ⟨?_, ?_, by decide, by decide, by decide⟩
  · simp only [generateCubeVertices]
    refine (length_flatMap_range _ 6 _ ?_).trans (by norm_num)
    intro i
    rfl
  · cases okV <;> cases okF <;> rfl

/-- Claim C4: one render-loop iteration issues exactly two indexed draw
calls in the two-cube World variant (here run on the `boxIndices` list the
`Cube` driver passes) and exactly one in the single-cube variant, each
with index count 36 and triangle primitive mode, and each iteration
requests the next frame callback exactly once.  The traces do not depend
on the elapsed time, so this holds in particular at t = 0. -/
theorem C4_draw_calls_per_iteration :
    drawCalls (worldLoopIterTr (some boxIndices)).1 =
      [(.triangles, 36), (.triangles, 36)] ∧
    (worldLoopIterTr (some boxIndices)).2 = none ∧
    countEv (worldLoopIterTr (some boxIndices)).1 isRaf = 1 ∧
    drawCalls cubeLoopIterTr = [(.triangles, 36)] ∧
    countEv cubeLoopIterTr isRaf = 1 := by
  decide

/-- Counterexample to claim C6: in the `World` wrapper a failed shader
compile produces no log event at all — `World.loadShader` never checks the
compile status, so no diagnostic text is reported.  (Concrete input: both
compiles fail.) -/
theorem C6_counterexample :
    ¬ Ev.consoleLog ∈ worldPrepareShadersTr false false := by
  decide

/-- Claim C6 as amended: the Triangle variant (and the identical sequence
in the interleaved cube variant) logs the diagnostic once per failed
compile, while `World.loadShader` performs no status check and never logs;
in all variants compilation failure is not fatal and not propagated — the
failed shader is still attached and the program is still linked. -/
theorem C6_amended_compile_failure_logged_only_in_triangle :
    ∀ okV okF : Bool,
    countEv (worldPrepareShadersTr okV okF) isLog = 0 ∧
    Ev.attachShader .vertex ∈ worldPrepareShadersTr okV okF ∧
    Ev.attachShader .fragment ∈ worldPrepareShadersTr okV okF ∧
    Ev.linkProgram ∈ worldPrepareShadersTr okV okF ∧
    countEv (compileAndLinkTr okV okF) isLog =
      (if okV then 0 else 1) + (if okF then 0 else 1) ∧
    Ev.attachShader .vertex ∈ compileAndLinkTr okV okF ∧
    Ev.attachShader .fragment ∈ compileAndLinkTr okV okF ∧
    Ev.linkProgram ∈ compileAndLinkTr okV okF := by
  intro okV okF
  cases okV <;> cases okF <;> decide

/-- Counterexample to claim C7: when the drawing surface named
`main-canvas` is absent, the Triangle variant never emits an alert — the
`canvas.getContext` call throws a TypeError first.  (Concrete input:
canvas absent, WebGL otherwise available, both compiles fine.) -/
theorem C7_counterexample :
    (triangleStartTr false true true true).2 = some .nullDeref ∧
    ¬ Ev.alert ∈ (triangleStartTr false true true true).1 := by
  decide

/-- Claim C7 as amended: only the surface-present-but-no-context case
alerts, and only in the Triangle (and interleaved cube) variant; the
rendering path then aborts because the next `gl` call throws, so no
rendering call completes after the alert.  When the surface is absent the
context lookup throws before any alert, and the `World` constructor
performs no check at all and throws without alerting. -/
theorem C7_amended_alert_only_for_null_context :
    (triangleStartTr true false true true).1 =
      [.getElement, .consoleLog, .getContext, .alert] ∧
    (triangleStartTr true false true true).2 = some .nullDeref ∧
    (triangleStartTr false true true true).2 = some .nullDeref ∧
    (triangleStartTr false true true true).1.all (fun e => !isAlert e) = true ∧
    (triangleStartTr true true true true).2 = none ∧
    (worldConstructorTr true false).2 = some .nullDeref ∧
    (worldConstructorTr true false).1.all (fun e => !isAlert e) = true ∧
    (worldConstructorTr false true).2 = some .nullDeref ∧
    (worldConstructorTr false true).1.all (fun e => !isAlert e) = true := by
  decide

/-- Claim C8: the view and projection matrices are uploaded exactly once,
in the pre-loop setup, and no render-loop iteration re-uploads them: every
event of an iteration is within the frame condition (clear, world-matrix
upload, draw, schedule next frame) in both cube variants. -/
theorem C8_view_proj_uploaded_once_before_loop :
    ∀ (okV okF : Bool) (L : ℚ),
    countEv (cube2RunSetupTr okV okF) isUniformView = 1 ∧
    countEv (cube2RunSetupTr okV okF) isUniformProj = 1 ∧
    (worldLoopIterTr (some boxIndices)).1.all frameScoped = true ∧
    countEv (cubeSetupTr okV okF L) isUniformView = 1 ∧
    countEv (cubeSetupTr okV okF L) isUniformProj = 1 ∧
    cubeLoopIterTr.all frameScoped = true := by
  intro okV okF L
  cases okV <;> cases okF <;>
    exact ⟨by decide, by decide, by decide, rfl, rfl, by decide⟩

/-- Claim C10: `World.run` declares `indices` as optional defaulting to
null, and `loadObject` handles the null by skipping the index buffer —
but every loop iteration reads `indices.length` unconditionally, so
running with the index list omitted throws at the first frame, after the
clear and the first world-matrix upload, issuing no draw call and never
scheduling another frame; with a non-null list no error occurs. -/
theorem C10_null_indices_fail_at_first_frame :
    (worldLoopIterTr none).2 = some .nullLength ∧
    (worldLoopIterTr none).1.all (fun e => !isDraw e) = true ∧
    (worldLoopIterTr none).1.all (fun e => !isRaf e) = true ∧
    (worldLoadObjectTr boxVertices.length colors.length none).all
      (fun e => !isBindElement e) = true ∧
    ∀ l : List ℕ, (worldLoopIterTr (some l)).2 = none := by
  refine ⟨by decide, by decide, by decide, by decide, fun l => rfl⟩

/-! ## Transform matrices (glMatrix mat4 semantics)

A `Mat4` is the column-major 16-entry array of glMatrix: `m c r` is array
element `4 * c + r`.  The rotation constructors involve sine, cosine and a
square root, so this part of the model lives in `ℝ`. -/

/-- 4×4 real matrix, column-major: `m c r` is glMatrix element
`4 * c + r`. -/
def Mat4 : Type := Fin 4 → Fin 4 → ℝ

/-- `mat4.create()`: the identity matrix. -/
def mat4create : Mat4 := fun c r => if c = r then 1 else 0

/-- `new Float32Array(16)`: the all-zero matrix. -/
def mat4zero : Mat4 := fun _ _ => 0

/-- `glMatrix.EPSILON`. -/
def glEPSILON : ℝ := 0.000001

/-- `mat4.multiply(out, a, b)`: `out[4c+r] = Σₖ a[4k+r] · b[4c+k]`. -/
def mat4mul (a b : Mat4) : Mat4 := fun c r =>
  a 0 r * b c 0 + a 1 r * b c 1 + a 2 r * b c 2 + a 3 r * b c 3

/-- `mat4.fromTranslation(out, [x, y, z])`: identity with the translation
vector in column 3. -/
def fromTranslation (x y z : ℝ) : Mat4 := fun c r =>
  if c = 3 ∧ r = 0 then x
  else if c = 3 ∧ r = 1 then y
  else if c = 3 ∧ r = 2 then z
  else if c = r then 1 else 0

open Classical in
/-- `mat4.fromRotation(out, rad, [x, y, z])`: normalizes the axis and
builds the axis-angle rotation matrix; returns `none` (leaving `out`
untouched) when the axis length is below `EPSILON`. -/
noncomputable def fromRot (rad x y z : ℝ) : Option Mat4 :=
  if Real.sqrt (x * x + y * y + z * z) < glEPSILON then none
  else
    let len := Real.sqrt (x * x + y * y + z * z)
    let nx := x / len
    let ny := y / len
    let nz := z / len
    let s := Real.sin rad
    let c := Real.cos rad
    let t := 1 - c
    some fun col r =>
      if col = 0 ∧ r = 0 then nx * nx * t + c
      else if col = 0 ∧ r = 1 then ny * nx * t + nz * s
      else if col = 0 ∧ r = 2 then nz * nx * t - ny * s
      else if col = 1 ∧ r = 0 then nx * ny * t - nz * s
      else if col = 1 ∧ r = 1 then ny * ny * t + c
      else if col = 1 ∧ r = 2 then nz * ny * t + nx * s
      else if col = 2 ∧ r = 0 then nx * nz * t + ny * s
      else if col = 2 ∧ r = 1 then ny * nz * t - nx * s
      else if col = 2 ∧ r = 2 then nz * nz * t + c
      else if col = 3 ∧ r = 3 then 1
      else 0

/-- `mat4.rotate(out, a, rad, axis)`: multiplies `a` by the axis-angle
rotation (column 3 copied from `a`, which coincides with the product since
the rotation's column 3 is (0,0,0,1)); `none` when the axis is
degenerate. -/
noncomputable def rotate4 (a : Mat4) (rad x y z : ℝ) : Option Mat4 :=
  (fromRot rad x y z).map fun b => fun col r =>
    if col = 3 then a col r else mat4mul a b col r

/-- The angle of the two-cube loop: `performance.now() / 1000 / 8 * 3 *
Math.PI`, with `now` in milliseconds. -/
noncomputable def angleWorld (now : ℝ) : ℝ := now / 1000 / 8 * 3 * Real.pi

/-- The angle of the interleaved-cube loop: `performance.now() / 1000 / 8
* 2 * Math.PI`. -/
noncomputable def angleCube (now : ℝ) : ℝ := now / 1000 / 8 * 2 * Real.pi

/-- First-iteration rotation matrix of the first cube:
`mat4.fromRotation(rotationMatrix, angle, [1, 1, 0])`, on a fresh
`Float32Array(16)` that stays zero when the axis is degenerate. -/
noncomputable def worldRotAt (now : ℝ) : Mat4 :=
  (fromRot (angleWorld now) 1 1 0).getD mat4zero

/-- First world matrix of the two-cube loop:
`mat4.mul(worldMatrix, fromTranslation([-1, -1, 0]), rotationMatrix)`. -/
noncomputable def worldMatrixAt (now : ℝ) : Mat4 :=
  mat4mul (fromTranslation (-1) (-1) 0) (worldRotAt now)

/-- First-iteration rotation matrix of the second cube:
`mat4.fromRotation(rotationMatrix, angle / 2, [1, 1, 1])`. -/
noncomputable def worldRot2At (now : ℝ) : Mat4 :=
  (fromRot (angleWorld now / 2) 1 1 1).getD mat4zero

/-- Second world matrix of the two-cube loop:
`mat4.mul(worldMatrix2, fromTranslation([1.2, 1.2, 0]), rotationMatrix)`. -/
noncomputable def worldMatrix2At (now : ℝ) : Mat4 :=
  mat4mul (fromTranslation 1.2 1.2 0) (worldRot2At now)

/-- World matrix of the interleaved-cube loop:
`mat4.rotate(worldMatrix, identityMatrix, angle, [2, 1, 0])`, on a
`worldMatrix` that was `mat4.create()` and stays so when the axis is
degenerate. -/
noncomputable def cubeWorldMatrixAt (now : ℝ) : Mat4 :=
  (rotate4 mat4create (angleCube now) 2 1 0).getD mat4create

/-- A vector whose square sum is at least 1 is not degenerate for the
glMatrix EPSILON test. -/
theorem eps_le_sqrt {v : ℝ} (h1 : 1 ≤ v) : ¬ Real.sqrt v < glEPSILON := by
  have h2 : Real.sqrt 1 ≤ Real.sqrt v := Real.sqrt_le_sqrt h1
  rw [Real.sqrt_one] at h2
  intro hlt
  simp only [glEPSILON] at hlt
  norm_num at hlt
  linarith

/-- Axis-angle rotation by angle 0 about any non-degenerate axis is the
identity. -/
theorem fromRot_zero (x y z : ℝ)
    (h : ¬ Real.sqrt (x * x + y * y + z * z) < glEPSILON) :
    fromRot 0 x y z = some mat4create := by
  unfold fromRot
  rw [if_neg h]
  refine congrArg some ?_
  funext col r
  fin_cases col <;> fin_cases r <;>
    simp [mat4create, Real.sin_zero, Real.cos_zero]

/-- Multiplying by the identity on the right changes nothing. -/
theorem mat4mul_create_right (a : Mat4) : mat4mul a mat4create = a := by
  funext c r
  fin_cases c <;> simp [mat4mul, mat4create]

/-- Claim C5: at elapsed time 0 both derived angles are 0, so the world
matrices of the two-cube loop equal the pure translation matrices by
(-1, -1, 0) and (1.2, 1.2, 0) (rotation by zero being the identity), and
the world matrix of the single-cube loop, which has no translation, is
exactly the identity. -/
theorem C5_world_matrices_at_time_zero :
    angleWorld 0 = 0 ∧ angleCube 0 = 0 ∧
    worldMatrixAt 0 = fromTranslation (-1) (-1) 0 ∧
    worldMatrix2At 0 = fromTranslation 1.2 1.2 0 ∧
    cubeWorldMatrixAt 0 = mat4create := by
  have hw : angleWorld 0 = 0 := by simp [angleWorld]
  have hc : angleCube 0 = 0 := by simp [angleCube]
  have h110 : ¬ Real.sqrt ((1 : ℝ) * 1 + 1 * 1 + 0 * 0) < glEPSILON :=
    eps_le_sqrt (by norm_num)
  have h111 : ¬ Real.sqrt ((1 : ℝ) * 1 + 1 * 1 + 1 * 1) < glEPSILON :=
    eps_le_sqrt (by norm_num)
  have h210 : ¬ Real.sqrt ((2 : ℝ) * 2 + 1 * 1 + 0 * 0) < glEPSILON :=
    eps_le_sqrt (by norm_num)
  refine ⟨hw, hc, ?_, ?_, ?_⟩
  · unfold worldMatrixAt worldRotAt
    rw [hw, fromRot_zero _ _ _ h110]
    simp [mat4mul_create_right]
  · unfold worldMatrix2At worldRot2At
    rw [hw, zero_div, fromRot_zero _ _ _ h111]
    simp [mat4mul_create_right]
  · unfold cubeWorldMatrixAt rotate4
    rw [hc, fromRot_zero _ _ _ h210]
    simp only [Option.map_some', Option.getD_some]
    funext col r
    rw [mat4mul_create_right]
    exact ite_self _

/-! ## Projection arguments (C9) -/

/-- The measurements of the drawing surface: the buffer size
(`width`/`height`) and the CSS layout size (`clientWidth` /
`clientHeight`), which need not agree. -/
structure Canvas where
  width : ℚ
  height : ℚ
  clientWidth : ℚ
  clientHeight : ℚ
  deriving DecidableEq

/-- The aspect-ratio expression of `World.run`:
`canvas.width / canvas.clientHeight` (note the mixed measurement pair). -/
def worldAspect (cv : Canvas) : ℚ := cv.width / cv.clientHeight

/-- The aspect-ratio expression of the interleaved Cube variant:
`canvas.clientWidth / canvas.clientHeight`. -/
def cubeAspect (cv : Canvas) : ℚ := cv.clientWidth / cv.clientHeight

/-- The four arguments passed to `mat4.perspective` after the output
matrix. -/
structure PerspectiveArgs where
  fovy : ℝ
  aspect : ℝ
  near : ℝ
  far : ℝ

/-- `glMatrix.glMatrix.toRadian(deg)`. -/
noncomputable def toRadian (d : ℝ) : ℝ := d * (Real.pi / 180)

/-- The perspective arguments of `World.run`:
`mat4.perspective(projMatrix, toRadian(45), canvas.width /
canvas.clientHeight, 0.1, 1000.0)`. -/
noncomputable def worldProjArgs (cv : Canvas) : PerspectiveArgs :=
  ⟨toRadian 45, (worldAspect cv : ℝ), 0.1, 1000.0⟩

/-- The perspective arguments of the interleaved Cube variant:
`mat4.perspective(projMatrix, toRadian(45), canvas.clientWidth /
canvas.clientHeight, 0.1, 1000.0)`. -/
noncomputable def cubeProjArgs (cv : Canvas) : PerspectiveArgs :=
  ⟨toRadian 45, (cubeAspect cv : ℝ), 0.1, 1000.0⟩

/-- Counterexample to claim C9: on a surface whose buffer size is 800×600
but whose CSS size is 400×300, the aspect ratio used by `World.run` is
800 / 300, which is neither buffer width / buffer height nor client width
/ client height — the code mixes the buffer width with the client
height. -/
theorem C9_counterexample :
    ¬ (worldAspect ⟨800, 600, 400, 300⟩ =
         (⟨800, 600, 400, 300⟩ : Canvas).width /
           (⟨800, 600, 400, 300⟩ : Canvas).height ∨
       worldAspect ⟨800, 600, 400, 300⟩ =
         (⟨800, 600, 400, 300⟩ : Canvas).clientWidth /
           (⟨800, 600, 400, 300⟩ : Canvas).clientHeight) := by
  unfold worldAspect
  norm_num

/-- Claim C9 as amended: in every variant the projection is built from a
45° field of view converted to radians, near plane 0.1 and far plane
1000.0; the interleaved variant's aspect ratio is client width / client
height (a single measurement pair), but `World.run` divides the buffer
width by the client height, which agrees with a single-pair ratio only
when the buffer width equals the client width. -/
theorem C9_amended_projection_args :
    (∀ cv : Canvas,
      (worldProjArgs cv).fovy = toRadian 45 ∧
      (worldProjArgs cv).near = 0.1 ∧ (worldProjArgs cv).far = 1000.0 ∧
      (cubeProjArgs cv).fovy = toRadian 45 ∧
      (cubeProjArgs cv).near = 0.1 ∧ (cubeProjArgs cv).far = 1000.0 ∧
      (cubeProjArgs cv).aspect = (cv.clientWidth : ℝ) / (cv.clientHeight : ℝ) ∧
      (worldProjArgs cv).aspect = (cv.width : ℝ) / (cv.clientHeight : ℝ)) ∧
    (∀ cv : Canvas, cv.width = cv.clientWidth → worldAspect cv = cubeAspect cv) := by
  constructor
  · intro cv
    refine ⟨rfl, rfl, rfl, rfl, rfl, rfl, ?_, ?_⟩
    · show ((cv.clientWidth / cv.clientHeight : ℚ) : ℝ) =
        (cv.clientWidth : ℝ) / (cv.clientHeight : ℝ)
      push_cast
      ring
    · show ((cv.width / cv.clientHeight : ℚ) : ℝ) =
        (cv.width : ℝ) / (cv.clientHeight : ℝ)
      push_cast
      ring
  · intro cv h
    unfold worldAspect cubeAspect
    rw [h]

/-- Witness for the amended C9 at a concrete surface whose buffer and
client sizes agree. -/
theorem C9_witness :
    worldAspect ⟨640, 480, 640, 480⟩ = cubeAspect ⟨640, 480, 640, 480⟩ :=
  C9_amended_projection_args.2 ⟨640, 480, 640, 480⟩ rfl
